import Mathlib

set_option maxHeartbeats 1000000

/-!
Verification of the reddit_analysis pipeline: a shallow embedding of
`reddit_fetcher.py`, `openai_analyzer.py` and `main.py`, together with
theorems about the fetching time window, the post-limit handling, the
per-post comment cap, the batching arithmetic of the analyzer, the error
isolation of batch analysis, the prompt truncation budgets, and the
raw-data save/load round trip.

External capabilities are modelled as explicit function parameters: the
praw submission stream is a list of `Submission` records, the comment tree
(after `replace_more`) is a function from post id to raw comments, the
OpenAI chat completion is a function from a request to `Except String
String` (an exception message or the response message content), and the
stdlib `json.loads` / `json.dumps` text layer and `datetime` formatting are
abstract functions. Unix timestamps (Python floats) are modelled as
integers; none of the properties proved here depend on sub-second
precision.
-/

/-- Comment record as built by `RedditFetcher.fetch_comments`: the dict with
keys id, author, body, score, created_utc, created_date, parent_id and
is_submitter. -/
structure Comment where
  id : String
  author : String
  body : String
  score : Int
  created_utc : Int
  created_date : String
  parent_id : String
  is_submitter : Bool
  deriving DecidableEq

/-- Post record as built by `RedditFetcher._extract_post_data`: the dict with
keys id, title, author, created_utc, created_date, score, num_comments,
selftext, url, permalink, is_self and comments. -/
structure Post where
  id : String
  title : String
  author : String
  created_utc : Int
  created_date : String
  score : Int
  num_comments : Int
  selftext : String
  url : String
  permalink : String
  is_self : Bool
  comments : List Comment
  deriving DecidableEq

/-- Raw praw submission as consumed by `_extract_post_data`. The author is
`none` when the account was deleted (`submission.author` is None). -/
structure Submission where
  id : String
  title : String
  author : Option String
  created_utc : Int
  score : Int
  num_comments : Int
  selftext : String
  url : String
  permalink : String
  is_self : Bool
  deriving DecidableEq

/-- Raw praw comment as seen by `fetch_comments` after `replace_more`. The
body is `none` when the object has no `body` attribute (the `hasattr`
check in the source); the author is `none` for deleted accounts. -/
structure RawComment where
  id : String
  author : Option String
  body : Option String
  score : Int
  created_utc : Int
  parent_id : String
  is_submitter : Bool
  deriving DecidableEq

/-- `RedditFetcher._extract_post_data`: builds the post dict from a
submission. `isoDate` models `datetime.fromtimestamp(t).isoformat()`; the
comments list starts empty and is attached later by `fetch_comments`. -/
def extract_post_data (isoDate : Int → String) (s : Submission) : Post :=
  { id := s.id
    title := s.title
    author := match s.author with | some a => a | none => "[deleted]"
    created_utc := s.created_utc
    created_date := isoDate s.created_utc
    score := s.score
    num_comments := s.num_comments
    selftext := s.selftext
    url := s.url
    permalink := "https://reddit.com" ++ s.permalink
    is_self := s.is_self
    comments := [] }

/-- The break condition `if limit and len(posts) >= limit` from
`fetch_posts`: Python truthiness makes it false when `limit` is None or 0,
otherwise it compares the number of collected posts against the limit. -/
def limitHit : Option Int → Nat → Bool
  | none, _ => false
  | some l, count => if l = 0 then false else decide (l ≤ (count : Int))

/-- The fetch loop of `RedditFetcher.fetch_posts`: walk the submission
stream, break at the first submission older than the cutoff, break when the
limit is hit, otherwise append the extracted post. `count` is the number of
posts collected so far (`len(posts)`). -/
def fetch_posts_loop (isoDate : Int → String) (cutoff : Int) (limit : Option Int) :
    List Submission → Nat → List Post
  | [], _ => []
  | s :: rest, count =>
    if s.created_utc < cutoff then
      []
    else if limitHit limit count then
      []
    else
      extract_post_data isoDate s :: fetch_posts_loop isoDate cutoff limit rest (count + 1)

/-- `RedditFetcher.fetch_posts`: the cutoff is
`(datetime.now() - timedelta(days=lookback_days)).timestamp()`, one day
being 86400 seconds; `subs` is the stream produced by
`subreddit.new(limit=None)`. -/
def fetch_posts (isoDate : Int → String) (subs : List Submission)
    (now lookback_days : Int) (limit : Option Int) : List Post :=
  fetch_posts_loop isoDate (now - lookback_days * 86400) limit subs 0

/-- Comment dict construction inside `fetch_comments`, for a raw comment
whose body attribute is present and equal to `b`. -/
def extract_comment (isoDate : Int → String) (c : RawComment) (b : String) : Comment :=
  { id := c.id
    author := match c.author with | some a => a | none => "[deleted]"
    body := b
    score := c.score
    created_utc := c.created_utc
    created_date := isoDate c.created_utc
    parent_id := c.parent_id
    is_submitter := c.is_submitter }

/-- The inner comment loop of `fetch_comments`: break once
`comment_count >= max_comments_per_post`; append (and count) a comment only
when it has a body attribute and the body differs from the removed
sentinel. -/
def collect_comments (isoDate : Int → String) (maxComments : Nat) :
    List RawComment → Nat → List Comment
  | [], _ => []
  | c :: rest, count =>
    if maxComments ≤ count then
      []
    else
      match c.body with
      | some b =>
        if b ≠ "[deleted]" then
          extract_comment isoDate c b :: collect_comments isoDate maxComments rest (count + 1)
        else
          collect_comments isoDate maxComments rest count
      | none => collect_comments isoDate maxComments rest count

/-- `RedditFetcher.fetch_comments`: for each post, attach the comments
collected from its flattened comment tree. `source` models
`submission.comments.list()` after `replace_more(limit=0)`, keyed by post
id. -/
def fetch_comments (isoDate : Int → String) (source : String → List RawComment)
    (posts : List Post) (maxComments : Nat) : List Post :=
  posts.map fun p => { p with comments := collect_comments isoDate maxComments (source p.id) 0 }

/-- Loosely typed JSON value, the shape of every Python object handled by the
analyzer and the save/load path (dicts with string keys, lists, strings,
integers, booleans, null). Numbers are modelled as integers. -/
inductive Json where
  | null : Json
  | bool (b : Bool) : Json
  | num (n : Int) : Json
  | str (s : String) : Json
  | arr (elts : List Json) : Json
  | obj (fields : List (String × Json)) : Json

/-- Python string slicing `s[:n]`: the first `n` characters of `s`. -/
def pyStrTake (s : String) (n : Nat) : String := ⟨s.data.take n⟩

/-- Python `range(0, stop, step)` for a positive step: the values `k * step`
for `k < ceil(stop / step)`. The analyzer only ever calls it with
`step = batch_size = 10` (a step of 0 would raise in Python and is never
reached). -/
def py_range (stop step : Nat) : List Nat :=
  (List.range ((stop + step - 1) / step)).map (fun k => k * step)

/-- Python list slicing `l[a:b]` for `0 ≤ a ≤ b`. -/
def py_slice (l : List α) (a b : Nat) : List α := (l.drop a).take (b - a)

/-- The batches `posts[i : i + batch_size]` for
`i in range(0, len(posts), batch_size)`, from
`analyze_recruitment_problems`. -/
def make_batches (posts : List Post) (batch_size : Nat) : List (List Post) :=
  (py_range posts.length batch_size).map (fun i => py_slice posts i (i + batch_size))

/-- The accumulation loop of `analyze_recruitment_problems`:
`if batch_analysis: all_problems.extend(batch_analysis)` over the per-batch
results in batch order (an empty result is skipped, which extends by
nothing). -/
def accumulate_problems : List (List Json) → List Json
  | [] => []
  | r :: rest =>
    match r with
    | [] => accumulate_problems rest
    | _ :: _ => r ++ accumulate_problems rest

/-- A chat completion request as assembled by the analyzer: the model name
and the system and user message contents. The temperature (0.3) and
`response_format` are fixed constants of the source and carry no
information for the properties proved here. -/
structure ChatRequest where
  model : String
  systemMessage : String
  userMessage : String
  deriving DecidableEq

/-- Text of the batch prompt before the interpolated content. -/
def batchPromptHead : String :=
  "Analyze these Reddit posts from r/recruitinghell and identify the main recruitment problems people are complaining about.\n\nFor each problem identified, provide:\n1. Problem title (short, descriptive)\n2. Description (2-3 sentences)\n3. Frequency (how often it appears)\n4. Example quotes or situations\n\nFocus on concrete, specific problems rather than general complaints.\n\nContent to analyze:\n"

/-- Text of the batch prompt after the interpolated content. -/
def batchPromptTail : String :=
  "\n\nReturn your analysis as a JSON array of problems."

/-- System message of the batch analysis request. -/
def batchSystemMessage : String :=
  "You are an expert at analyzing recruitment and hiring practices. Extract specific, actionable problems from Reddit posts."

/-- Text of the summary prompt before the interpolated problems list. -/
def summaryPromptHead : String :=
  "Given this list of recruitment problems identified from Reddit posts, create a comprehensive summary.\n\nGroup similar problems together and rank them by frequency/severity.\n\nProvide:\n1. Top 10 most common recruitment problems (ranked)\n2. Key themes and patterns\n3. Specific examples for each problem\n4. Brief recommendations for job seekers\n\nProblems list:\n"

/-- Text of the summary prompt after the interpolated problems list. -/
def summaryPromptTail : String :=
  "\n\nFormat as a structured JSON response with clear categories."

/-- System message of the summarization request. -/
def summarySystemMessage : String :=
  "You are an expert at synthesizing and summarizing recruitment industry problems."

/-- One comment line of the excerpt built by `_prepare_content_for_analysis`:
the comment body is truncated to 200 characters. -/
def comment_line (c : Comment) : String :=
  "- " ++ pyStrTake c.body 200 ++ "...\n"

/-- The per-post part of `_prepare_content_for_analysis`: the title, the body
text when non-empty, and up to 5 comments. -/
def post_excerpt (post : Post) : String :=
  let pc := "POST: " ++ post.title ++ "\n"
  let pc := if post.selftext.isEmpty then pc else pc ++ "BODY: " ++ post.selftext ++ "\n"
  match post.comments with
  | [] => pc
  | _ :: _ => pc ++ "TOP COMMENTS:\n" ++ String.join ((post.comments.take 5).map comment_line)

/-- `OpenAIAnalyzer._prepare_content_for_analysis`: the per-post excerpts
joined with the separator. -/
def prepare_content_for_analysis (posts : List Post) : String :=
  String.intercalate "\n---\n" (posts.map post_excerpt)

/-- The user message of the batch analysis request: the prompt template with
the combined excerpt truncated to 8000 characters interpolated into it. -/
def batch_prompt (posts : List Post) : String :=
  batchPromptHead ++ pyStrTake (prepare_content_for_analysis posts) 8000 ++ batchPromptTail

/-- The chat completion request issued by `_analyze_batch`. -/
def batch_request (posts : List Post) : ChatRequest :=
  { model := "gpt-4o-mini"
    systemMessage := batchSystemMessage
    userMessage := batch_prompt posts }

/-- The value of `result.get('problems', [])` in `_analyze_batch`, as a list
of problem records. A non-dict result raises inside the try block and is
caught (yielding no problems); a dict without the key yields the default
empty list. A dict whose problems entry is not a list would be extended
element-wise by the caller in Python; the source type annotation promises a
list and the non-list case is modelled as contributing no problems. -/
def extract_problems : Json → List Json
  | Json.obj kvs =>
    match kvs.lookup "problems" with
    | some (Json.arr l) => l
    | some _ => []
    | none => []
  | _ => []

/-- `OpenAIAnalyzer._analyze_batch`: build the prompt, call the completion
capability, parse the response content as JSON and read the problems list;
any capability error or parse failure is caught and the batch contributes
the empty list. The function is total — no exception escapes it. -/
def analyze_batch (complete : ChatRequest → Except String String)
    (jsonLoads : String → Except String Json) (posts : List Post) : List Json :=
  match complete (batch_request posts) with
  | Except.error _ => []
  | Except.ok content =>
    match jsonLoads content with
    | Except.error _ => []
    | Except.ok result => extract_problems result

/-- The user message of the summarization request: the serialized problems
list truncated to 10000 characters interpolated into the template.
`jsonDumps` models `json.dumps(all_problems, indent=2)`. -/
def summary_prompt (jsonDumps : Json → String) (all_problems : List Json) : String :=
  summaryPromptHead ++ pyStrTake (jsonDumps (Json.arr all_problems)) 10000 ++ summaryPromptTail

/-- The chat completion request issued by `_summarize_problems`. -/
def summary_request (jsonDumps : Json → String) (all_problems : List Json) : ChatRequest :=
  { model := "gpt-4o-mini"
    systemMessage := summarySystemMessage
    userMessage := summary_prompt jsonDumps all_problems }

/-- `OpenAIAnalyzer._summarize_problems`: an empty problems list yields the
error report immediately (before any capability call); otherwise the
capability is called and a raised error (or a parse failure of the
response) is caught and turned into an error-tagged report carrying the
description of the error. -/
def summarize_problems (complete : ChatRequest → Except String String)
    (jsonLoads : String → Except String Json) (jsonDumps : Json → String) :
    List Json → Json
  | [] => Json.obj [("error", Json.str "No problems identified")]
  | p :: ps =>
    match complete (summary_request jsonDumps (p :: ps)) with
    | Except.error e => Json.obj [("error", Json.str e)]
    | Except.ok content =>
      match jsonLoads content with
      | Except.error e => Json.obj [("error", Json.str e)]
      | Except.ok j => j

/-- `OpenAIAnalyzer.analyze_recruitment_problems`: batch the posts, analyze
each batch, accumulate the per-batch problem lists, and summarize. -/
def analyze_recruitment_problems (complete : ChatRequest → Except String String)
    (jsonLoads : String → Except String Json) (jsonDumps : Json → String)
    (posts : List Post) (batch_size : Nat) : Json :=
  let all_problems :=
    accumulate_problems ((make_batches posts batch_size).map (analyze_batch complete jsonLoads))
  summarize_problems complete jsonLoads jsonDumps all_problems

/-- `OpenAIAnalyzer.generate_report`: writes the serialized analysis to the
output file, modelled as the pair of the path written to and the content
written. -/
def generate_report (jsonDumps : Json → String) (analysis : Json)
    (output_file : String) : String × String :=
  (output_file, jsonDumps analysis)

/-- The analysis stage of `main`: run `analyze_recruitment_problems` with the
default batch size 10 and write the result to `<output>.json`. -/
def main_analysis_stage (complete : ChatRequest → Except String String)
    (jsonLoads : String → Except String Json) (jsonDumps : Json → String)
    (posts : List Post) (output : String) : String × String :=
  generate_report jsonDumps
    (analyze_recruitment_problems complete jsonLoads jsonDumps posts 10)
    (output ++ ".json")

/-- The JSON value serialized for one comment by the raw-save path of `main`
(`json.dump` of the comment dict built by `fetch_comments`). -/
def comment_to_json (c : Comment) : Json :=
  Json.obj
    [("id", Json.str c.id),
     ("author", Json.str c.author),
     ("body", Json.str c.body),
     ("score", Json.num c.score),
     ("created_utc", Json.num c.created_utc),
     ("created_date", Json.str c.created_date),
     ("parent_id", Json.str c.parent_id),
     ("is_submitter", Json.bool c.is_submitter)]

/-- The JSON value serialized for one post by the raw-save path of `main`
(`json.dump` of the dict built by `_extract_post_data`, with the attached
comments nested under the comments key). -/
def post_to_json (p : Post) : Json :=
  Json.obj
    [("id", Json.str p.id),
     ("title", Json.str p.title),
     ("author", Json.str p.author),
     ("created_utc", Json.num p.created_utc),
     ("created_date", Json.str p.created_date),
     ("score", Json.num p.score),
     ("num_comments", Json.num p.num_comments),
     ("selftext", Json.str p.selftext),
     ("url", Json.str p.url),
     ("permalink", Json.str p.permalink),
     ("is_self", Json.bool p.is_self),
     ("comments", Json.arr (p.comments.map comment_to_json))]

/-- The raw-save path of `main` (`--save-raw`): the JSON value written to
`reddit_data_<timestamp>.json` is the array of post records. The text layer
(`json.dump` / `json.load` with `ensure_ascii=False`) is the stdlib and is
value-faithful for these trees, so persistence is modelled at the JSON
value level. -/
def save_raw_data (posts : List Post) : Json :=
  Json.arr (posts.map post_to_json)

/-- Reading one loaded comment record back into the fields the pipeline
accesses (the inverse view of `comment_to_json`). -/
def comment_from_json : Json → Option Comment
  | Json.obj kvs =>
    match kvs.lookup "id", kvs.lookup "author", kvs.lookup "body",
        kvs.lookup "score", kvs.lookup "created_utc", kvs.lookup "created_date",
        kvs.lookup "parent_id", kvs.lookup "is_submitter" with
    | some (Json.str cid), some (Json.str author), some (Json.str body),
      some (Json.num score), some (Json.num cu), some (Json.str cd),
      some (Json.str pid), some (Json.bool sub) =>
      some
        { id := cid, author := author, body := body, score := score,
          created_utc := cu, created_date := cd, parent_id := pid,
          is_submitter := sub }
    | _, _, _, _, _, _, _, _ => none
  | _ => none

/-- Reading a loaded list of comment records, element by element. -/
def decode_comments : List Json → Option (List Comment)
  | [] => some []
  | j :: rest =>
    match comment_from_json j, decode_comments rest with
    | some c, some cs => some (c :: cs)
    | _, _ => none

/-- Reading one loaded post record back into the fields the pipeline accesses
(the inverse view of `post_to_json`). -/
def post_from_json : Json → Option Post
  | Json.obj kvs =>
    match kvs.lookup "id", kvs.lookup "title", kvs.lookup "author",
        kvs.lookup "created_utc", kvs.lookup "created_date", kvs.lookup "score",
        kvs.lookup "num_comments", kvs.lookup "selftext", kvs.lookup "url",
        kvs.lookup "permalink", kvs.lookup "is_self", kvs.lookup "comments" with
    | some (Json.str pid), some (Json.str title), some (Json.str author),
      some (Json.num cu), some (Json.str cd), some (Json.num score),
      some (Json.num nc), some (Json.str st), some (Json.str url),
      some (Json.str pl), some (Json.bool isSelf), some (Json.arr cs) =>
      match decode_comments cs with
      | some comments =>
        some
          { id := pid, title := title, author := author, created_utc := cu,
            created_date := cd, score := score, num_comments := nc,
            selftext := st, url := url, permalink := pl, is_self := isSelf,
            comments := comments }
      | none => none
    | _, _, _, _, _, _, _, _, _, _, _, _ => none
  | _ => none

/-- Reading a loaded list of post records, element by element. -/
def decode_posts : List Json → Option (List Post)
  | [] => some []
  | j :: rest =>
    match post_from_json j, decode_posts rest with
    | some p, some ps => some (p :: ps)
    | _, _ => none

/-- The load path of `main` (`--load-from-file`): the loaded JSON value is
used as the post sequence; anything other than an array of post records
fails to decode. -/
def load_raw_data : Json → Option (List Post) :=
  fun j =>
    match j with
    | Json.arr l => decode_posts l
    | _ => none

/-- Every post appended by the fetch loop passed the cutoff test: the loop
breaks at the first submission strictly older than the cutoff and appends
only otherwise. -/
theorem fetch_posts_loop_cutoff (isoDate : Int → String) (cutoff : Int) (limit : Option Int) :
    ∀ (subs : List Submission) (count : Nat) (p : Post),
      p ∈ fetch_posts_loop isoDate cutoff limit subs count → cutoff ≤ p.created_utc := by
  intro subs
  induction subs with
  | nil =>
    intro count p hp
    simp [fetch_posts_loop] at hp
  | cons s rest ih =>
    intro count p hp
    by_cases hc : s.created_utc < cutoff
    · simp [fetch_posts_loop, hc] at hp
    · by_cases hl : limitHit limit count
      · simp [fetch_posts_loop, hc, hl] at hp
      · simp only [fetch_posts_loop, if_neg hc, hl, if_false, Bool.false_eq_true,
          List.mem_cons] at hp
        rcases hp with h | h
        · subst h
          simpa [extract_post_data] using Int.not_lt.mp hc
        · exact ih (count + 1) p h

/-- Claim C3: for every lookback window, assuming the source stream is in
non-increasing creation-time order, every post returned by `fetch_posts`
has creation time at or after the cutoff `now - lookback_days` days; no
older post appears. (The loop structure makes the bound hold even without
the monotonicity assumption, which matters only for completeness.) -/
theorem fetch_posts_time_window (isoDate : Int → String) (subs : List Submission)
    (now lookback_days : Int) (limit : Option Int)
    (_hmono : List.Chain' (fun a b => b.created_utc ≤ a.created_utc) subs) :
    ∀ p ∈ fetch_posts isoDate subs now lookback_days limit,
      now - lookback_days * 86400 ≤ p.created_utc := by
  intro p hp
  exact fetch_posts_loop_cutoff isoDate _ limit subs 0 p hp

/-- Fixed date formatter used for the concrete evaluations below. -/
def demoIso : Int → String := fun _ => ""

/-- A submission inside the time window of the concrete runs below. -/
def demoSub : Submission :=
  { id := "s1", title := "t", author := some "a", created_utc := 100, score := 1,
    num_comments := 0, selftext := "", url := "u", permalink := "/p", is_self := true }

/-- Witness for the time-window theorem at a concrete one-element stream. -/
theorem fetch_posts_time_window_witness :
    List.Chain' (fun a b => b.created_utc ≤ a.created_utc) [demoSub] ∧
    (100 : Int) - 0 * 86400 ≤ (extract_post_data demoIso demoSub).created_utc :=
  ⟨List.chain'_singleton demoSub,
   fetch_posts_time_window demoIso [demoSub] 100 0 none (List.chain'_singleton demoSub)
     (extract_post_data demoIso demoSub) (by decide)⟩

/-- With a positive limit, the fetch loop collects at most `limit - count`
further posts. -/
theorem fetch_posts_loop_limit (isoDate : Int → String) (cutoff : Int) (l : Int)
    (hl : 0 < l) :
    ∀ (subs : List Submission) (count : Nat),
      (fetch_posts_loop isoDate cutoff (some l) subs count).length ≤ l.toNat - count := by
  intro subs
  induction subs with
  | nil =>
    intro count
    simp [fetch_posts_loop]
  | cons s rest ih =>
    intro count
    by_cases hc : s.created_utc < cutoff
    · simp [fetch_posts_loop, hc]
    · by_cases hcnt : limitHit (some l) count
      · simp [fetch_posts_loop, hc, hcnt]
      · have hlt : (count : Int) < l := by
          rw [limitHit, if_neg (by omega : ¬ l = 0)] at hcnt
          simp only [decide_eq_true_eq] at hcnt
          omega
        simp only [fetch_posts_loop, if_neg hc, hcnt, if_false, Bool.false_eq_true,
          List.length_cons]
        have := ih (count + 1)
        omega

/-- Claim C4 (amended): for every positive limit N supplied to `fetch_posts`
and every source stream, the returned post sequence has length at most N.
(N = 0 is excluded: Python truthiness disables the limit check there, see
the counterexample.) -/
theorem fetch_posts_limit_bound (isoDate : Int → String) (subs : List Submission)
    (now lookback_days : Int) (N : Int) (h : 0 < N) :
    ((fetch_posts isoDate subs now lookback_days (some N)).length : Int) ≤ N := by
  have := fetch_posts_loop_limit isoDate (now - lookback_days * 86400) N h subs 0
  unfold fetch_posts
  omega

/-- Witness for the amended limit bound at N = 1 over a two-element stream. -/
theorem fetch_posts_limit_bound_witness :
    (0 : Int) < 1 ∧
    ((fetch_posts demoIso [demoSub, demoSub] 100 0 (some 1)).length : Int) ≤ 1 :=
  ⟨by decide, fetch_posts_limit_bound demoIso [demoSub, demoSub] 100 0 1 (by decide)⟩

/-- Claim C4 as stated is false at N = 0: `if limit and len(posts) >= limit`
is never true for limit 0, so a one-element in-window stream yields one
post, not zero. -/
theorem fetch_posts_limit_zero_counterexample :
    ¬ ((fetch_posts demoIso [demoSub] 100 0 (some 0)).length ≤ 0) := by
  decide

/-- The fetch loop behaves identically under limit 0 and no limit: the break
condition is false in both cases. -/
theorem fetch_posts_loop_limit_zero (isoDate : Int → String) (cutoff : Int) :
    ∀ (subs : List Submission) (count : Nat),
      fetch_posts_loop isoDate cutoff (some 0) subs count =
        fetch_posts_loop isoDate cutoff none subs count := by
  intro subs
  induction subs with
  | nil => intro count; rfl
  | cons s rest ih =>
    intro count
    simp [fetch_posts_loop, limitHit, ih]

/-- Claim C10: a limit of 0 is not enforced — `fetch_posts` behaves exactly
as with no limit, and the result can be non-empty (here: one in-window
submission yields one post). -/
theorem fetch_posts_limit_zero_unenforced :
    (∀ (isoDate : Int → String) (subs : List Submission) (now lookback_days : Int),
        fetch_posts isoDate subs now lookback_days (some 0) =
          fetch_posts isoDate subs now lookback_days none) ∧
    0 < (fetch_posts demoIso [demoSub] 100 0 (some 0)).length := by
  constructor
  · intro isoDate subs now lookback_days
    exact fetch_posts_loop_limit_zero isoDate _ subs 0
  · decide

/-- The accumulation loop equals flattening: extending by an empty per-batch
result is the same as concatenating it. -/
theorem accumulate_problems_eq_flatten :
    ∀ rs : List (List Json), accumulate_problems rs = rs.flatten := by
  intro rs
  induction rs with
  | nil => rfl
  | cons r rest ih =>
    cases r with
    | nil => simp [accumulate_problems, ih]
    | cons x xs => simp [accumulate_problems, ih]

/-- Shape of the k-th batch: it exists exactly for `k < ceil(P / 10)` and is
the slice `posts[k*10 : k*10 + 10]`. -/
theorem make_batches_getElem (posts : List Post) (k : Nat) (b : List Post)
    (hb : (make_batches posts 10)[k]? = some b) :
    k < (posts.length + 9) / 10 ∧ b = py_slice posts (k * 10) (k * 10 + 10) := by
  simp only [make_batches, py_range, List.map_map, List.getElem?_map] at hb
  rcases Nat.lt_or_ge k ((posts.length + 10 - 1) / 10) with hk | hk
  · rw [List.getElem?_range hk] at hb
    simp only [Option.map_some', Option.some.injEq] at hb
    constructor
    · omega
    · simp [← hb, Function.comp]
  · rw [List.getElem?_eq_none] at hb
    · simp at hb
    · simpa using hk

/-- Concatenation of consecutive slices of width `s` starting at multiples of
`s`: the first `n` of them flatten to the first `n * s` elements. -/
theorem flatten_range_slices {α : Type} (l : List α) (s : Nat) :
    ∀ n : Nat,
      ((List.range n).map (fun k => (l.drop (k * s)).take s)).flatten = l.take (n * s) := by
  intro n
  induction n with
  | zero => simp
  | succ n ih =>
    rw [List.range_succ]
    simp only [List.map_append, List.map_cons, List.map_nil, List.flatten_append,
      List.flatten_cons, List.flatten_nil, List.append_nil, ih]
    rw [Nat.succ_mul, List.take_add]

/-- Claim C2: with batch size 10, `analyze_recruitment_problems` partitions
the posts into consecutive chunks: `ceil(P / 10)` batches, every batch but
the last of length exactly 10, the last of length `P mod 10` (or 10 when
`P mod 10 = 0`), concatenating back to the input; and the accumulated
problem list is the flattening of the per-batch results in batch order. -/
theorem analyze_batching (posts : List Post) :
    (make_batches posts 10).length = (posts.length + 9) / 10 ∧
    (∀ (k : Nat) (b : List Post), (make_batches posts 10)[k]? = some b →
        k + 1 < (posts.length + 9) / 10 → b.length = 10) ∧
    (∀ b : List Post, (make_batches posts 10).getLast? = some b →
        b.length = if posts.length % 10 = 0 then 10 else posts.length % 10) ∧
    (make_batches posts 10).flatten = posts ∧
    (∀ f : List Post → List Json,
        accumulate_problems ((make_batches posts 10).map f) =
          ((make_batches posts 10).map f).flatten) := by
  have hlen : (make_batches posts 10).length = (posts.length + 9) / 10 := by
    simp only [make_batches, py_range, List.map_map, List.length_map, List.length_range]
    omega
  refine ⟨hlen, ?_, ?_, ?_, fun f => accumulate_problems_eq_flatten _⟩
  · intro k b hb hk
    obtain ⟨hkn, rfl⟩ := make_batches_getElem posts k b hb
    simp only [py_slice, List.length_take, List.length_drop]
    omega
  · intro b hb
    rw [List.getLast?_eq_getElem?, hlen] at hb
    obtain ⟨hkn, rfl⟩ := make_batches_getElem posts _ b hb
    simp only [py_slice, List.length_take, List.length_drop]
    by_cases hmod : posts.length % 10 = 0
    · simp only [if_pos hmod]
      omega
    · simp only [if_neg hmod]
      omega
  · simp only [make_batches, py_range, List.map_map]
    have hcomp :
        ((fun i => py_slice posts i (i + 10)) ∘ fun k => k * 10) =
          fun k => (posts.drop (k * 10)).take 10 := by
      funext k
      simp [py_slice, Function.comp]
    rw [hcomp, flatten_range_slices]
    exact List.take_of_length_le (by omega)

/-- Thirteen concrete posts, batching into one full batch of 10 and a last
batch of 3. -/
def demoPosts : List Post := List.replicate 13 (extract_post_data demoIso demoSub)

/-- Witness for the batching theorem at 13 concrete posts: the non-last batch
has exactly 10 posts and the last has 13 mod 10 = 3. -/
theorem analyze_batching_witness :
    (py_slice demoPosts (0 * 10) (0 * 10 + 10)).length = 10 ∧
    (py_slice demoPosts (1 * 10) (1 * 10 + 10)).length =
      (if demoPosts.length % 10 = 0 then 10 else demoPosts.length % 10) := by
  constructor
  · exact (analyze_batching demoPosts).2.1 0 _ (by decide) (by decide)
  · exact (analyze_batching demoPosts).2.2.1 _ (by decide)

/-- Claim C1: when the completion call for a batch raises, or its response
fails to parse as JSON, `_analyze_batch` returns the empty contribution for
that batch — it is a total function, so no exception escapes it — and
`analyze_recruitment_problems` still returns the summary of the flattened
per-batch contributions, the failing batch contributing nothing to the
flattening. -/
theorem analyze_batch_failure_isolated (complete : ChatRequest → Except String String)
    (jsonLoads : String → Except String Json) (jsonDumps : Json → String)
    (posts : List Post) (batch : List Post)
    (hfail : (∃ e, complete (batch_request batch) = Except.error e) ∨
      (∃ s, complete (batch_request batch) = Except.ok s ∧
        ∃ e, jsonLoads s = Except.error e)) :
    analyze_batch complete jsonLoads batch = [] ∧
    analyze_recruitment_problems complete jsonLoads jsonDumps posts 10 =
      summarize_problems complete jsonLoads jsonDumps
        (((make_batches posts 10).map (analyze_batch complete jsonLoads)).flatten) := by
  constructor
  · rcases hfail with ⟨e, he⟩ | ⟨s, hs, e, he⟩
    · simp [analyze_batch, he]
    · simp [analyze_batch, hs, he]
  · unfold analyze_recruitment_problems
    rw [accumulate_problems_eq_flatten]

/-- Completion capability that always raises, for concrete runs. -/
def demoFailComplete : ChatRequest → Except String String := fun _ => Except.error "boom"

/-- JSON parsing stub that always fails, for concrete runs. -/
def demoLoads : String → Except String Json := fun _ => Except.error "bad json"

/-- JSON serialization stub, for concrete runs. -/
def demoDumps : Json → String := fun _ => ""

/-- Witness for the failure-isolation theorem with an always-raising
capability. -/
theorem analyze_batch_failure_isolated_witness :
    analyze_batch demoFailComplete demoLoads [] = [] ∧
    analyze_recruitment_problems demoFailComplete demoLoads demoDumps [] 10 =
      summarize_problems demoFailComplete demoLoads demoDumps
        (((make_batches ([] : List Post) 10).map
          (analyze_batch demoFailComplete demoLoads)).flatten) :=
  analyze_batch_failure_isolated demoFailComplete demoLoads demoDumps [] []
    (Or.inl ⟨"boom", rfl⟩)

/-- Claim C6: given the empty problem sequence, the summarizer returns the
error-indicator report — a constant, independent of the completion
capability, which is therefore not called, and nothing is raised — and the
report writer still writes that report to `<output>.json`. The hypothesis
puts the whole pipeline in the empty-problems scenario. -/
theorem summarize_empty_error_report (complete : ChatRequest → Except String String)
    (jsonLoads : String → Except String Json) (jsonDumps : Json → String)
    (posts : List Post) (output : String)
    (hempty : accumulate_problems
        ((make_batches posts 10).map (analyze_batch complete jsonLoads)) = []) :
    summarize_problems complete jsonLoads jsonDumps [] =
      Json.obj [("error", Json.str "No problems identified")] ∧
    main_analysis_stage complete jsonLoads jsonDumps posts output =
      (output ++ ".json",
        jsonDumps (Json.obj [("error", Json.str "No problems identified")])) := by
  refine ⟨rfl, ?_⟩
  unfold main_analysis_stage analyze_recruitment_problems generate_report
  rw [hempty]
  rfl

/-- Witness for the empty-problems theorem: no posts, hence no batches and no
problems; the error report is written to the default output path. -/
theorem summarize_empty_error_report_witness :
    accumulate_problems
        ((make_batches ([] : List Post) 10).map
          (analyze_batch demoFailComplete demoLoads)) = [] ∧
    (summarize_problems demoFailComplete demoLoads demoDumps [] =
      Json.obj [("error", Json.str "No problems identified")] ∧
    main_analysis_stage demoFailComplete demoLoads demoDumps [] "recruitment_problems_report" =
      ("recruitment_problems_report" ++ ".json",
        demoDumps (Json.obj [("error", Json.str "No problems identified")]))) :=
  ⟨rfl, summarize_empty_error_report demoFailComplete demoLoads demoDumps []
    "recruitment_problems_report" rfl⟩

/-- Claim C7: for a non-empty problem sequence, an error raised by the
completion capability inside the summarizer is caught and turned into the
error-tagged report carrying the description of the error, instead of
propagating. -/
theorem summarize_capability_error (complete : ChatRequest → Except String String)
    (jsonLoads : String → Except String Json) (jsonDumps : Json → String)
    (problems : List Json) (e : String)
    (hne : problems ≠ [])
    (herr : complete (summary_request jsonDumps problems) = Except.error e) :
    summarize_problems complete jsonLoads jsonDumps problems =
      Json.obj [("error", Json.str e)] := by
  cases problems with
  | nil => exact absurd rfl hne
  | cons p ps => simp [summarize_problems, herr]

/-- Witness for the summarizer error theorem with an always-raising
capability and a one-element problem list. -/
theorem summarize_capability_error_witness :
    ([Json.null] ≠ ([] : List Json)) ∧
    summarize_problems demoFailComplete demoLoads demoDumps [Json.null] =
      Json.obj [("error", Json.str "boom")] :=
  ⟨List.cons_ne_nil _ _,
   summarize_capability_error demoFailComplete demoLoads demoDumps [Json.null] "boom"
     (List.cons_ne_nil _ _) rfl⟩

/-- Hard-cutoff truncation never exceeds its budget. -/
theorem pyStrTake_length_le (s : String) (n : Nat) : (pyStrTake s n).length ≤ n := by
  have h : (pyStrTake s n).length = (s.data.take n).length := rfl
  rw [h]
  exact List.length_take_le n s.data

/-- Claim C8: every candidate text embedded in a completion request is
truncated to the fixed character budget of its stage. The batch request
embeds exactly the combined excerpt cut to 8000 characters, the summary
request embeds exactly the serialized problems list cut to 10000
characters, and within an excerpt a post contributes at most its first 5
comments, each comment body cut to 200 characters (only those prefixes can
influence the excerpt). -/
theorem content_truncation_budgets (posts : List Post) (problems : List Json)
    (jsonDumps : Json → String) :
    (batch_request posts).userMessage =
      batchPromptHead ++ pyStrTake (prepare_content_for_analysis posts) 8000 ++
        batchPromptTail ∧
    (pyStrTake (prepare_content_for_analysis posts) 8000).length ≤ 8000 ∧
    (summary_request jsonDumps problems).userMessage =
      summaryPromptHead ++ pyStrTake (jsonDumps (Json.arr problems)) 10000 ++
        summaryPromptTail ∧
    (pyStrTake (jsonDumps (Json.arr problems)) 10000).length ≤ 10000 ∧
    (∀ post : Post, post_excerpt post =
        post_excerpt { post with comments := post.comments.take 5 }) ∧
    (∀ post : Post, (post.comments.take 5).length ≤ 5) ∧
    (∀ c : Comment, comment_line c = comment_line { c with body := pyStrTake c.body 200 }) ∧
    (∀ c : Comment, (pyStrTake c.body 200).length ≤ 200) := by
  refine ⟨rfl, pyStrTake_length_le _ _, rfl, pyStrTake_length_le _ _, ?_, ?_, ?_,
    fun c => pyStrTake_length_le _ _⟩
  · rintro ⟨pid, title, author, cu, cd, score, nc, st, url, pl, isSelf, comments⟩
    cases comments with
    | nil => rfl
    | cons c cs => simp [post_excerpt, List.take_take]
  · intro post
    exact List.length_take_le 5 post.comments
  · intro c
    simp [comment_line, pyStrTake, List.take_take]

/-- Decoding inverts encoding for a single comment record. -/
theorem comment_round_trip (c : Comment) :
    comment_from_json (comment_to_json c) = some c := rfl

/-- Decoding inverts encoding for a list of comment records. -/
theorem decode_comments_round_trip :
    ∀ cs : List Comment, decode_comments (cs.map comment_to_json) = some cs := by
  intro cs
  induction cs with
  | nil => rfl
  | cons c cs ih => simp [decode_comments, comment_round_trip, ih]

/-- Decoding inverts encoding for a single post record. -/
theorem post_round_trip (p : Post) :
    post_from_json (post_to_json p) = some p := by
  show (match decode_comments (p.comments.map comment_to_json) with
        | some comments =>
          some
            { id := p.id, title := p.title, author := p.author,
              created_utc := p.created_utc, created_date := p.created_date,
              score := p.score, num_comments := p.num_comments,
              selftext := p.selftext, url := p.url, permalink := p.permalink,
              is_self := p.is_self, comments := comments }
        | none => none) = some p
  rw [decode_comments_round_trip]

/-- Decoding inverts encoding for a list of post records. -/
theorem decode_posts_round_trip :
    ∀ ps : List Post, decode_posts (ps.map post_to_json) = some ps := by
  intro ps
  induction ps with
  | nil => rfl
  | cons p ps ih => simp [decode_posts, post_round_trip, ih]

/-- Claim C9: persisting a post sequence through the raw-save path and
reloading it through the load path yields the same post sequence —
`Load(Save(x)) = x` structurally, so in particular the identifiers and the
comment counts are unchanged. -/
theorem save_load_round_trip (posts : List Post) :
    load_raw_data (save_raw_data posts) = some posts := by
  show decode_posts (posts.map post_to_json) = some posts
  exact decode_posts_round_trip posts

/-- The comment loop collects at most `maxComments - count` further comments:
the counter is advanced exactly when a comment is appended and the loop
breaks once the counter reaches the cap. -/
theorem collect_comments_length (isoDate : Int → String) (maxComments : Nat) :
    ∀ (rcs : List RawComment) (count : Nat),
      (collect_comments isoDate maxComments rcs count).length ≤ maxComments - count := by
  intro rcs
  induction rcs with
  | nil =>
    intro count
    simp [collect_comments]
  | cons rc rest ih =>
    intro count
    by_cases hcnt : maxComments ≤ count
    · simp [collect_comments, hcnt]
    · rcases hb : rc.body with _ | b
      · simpa [collect_comments, hcnt, hb] using ih count
      · by_cases hdel : b = "[deleted]"
        · simpa [collect_comments, hcnt, hb, hdel] using ih count
        · simp only [collect_comments, if_neg hcnt, hb, if_pos hdel, List.length_cons,
            ne_eq, hdel, not_false_iff, if_true]
          have := ih (count + 1)
          omega

/-- No collected comment carries the removed-sentinel body: such bodies are
skipped before appending. -/
theorem collect_comments_no_deleted (isoDate : Int → String) (maxComments : Nat) :
    ∀ (rcs : List RawComment) (count : Nat) (c : Comment),
      c ∈ collect_comments isoDate maxComments rcs count → c.body ≠ "[deleted]" := by
  intro rcs
  induction rcs with
  | nil =>
    intro count c hc
    simp [collect_comments] at hc
  | cons rc rest ih =>
    intro count c hc
    by_cases hcnt : maxComments ≤ count
    · simp [collect_comments, hcnt] at hc
    · rcases hb : rc.body with _ | b
      · rw [collect_comments, if_neg hcnt, hb] at hc
        exact ih count c hc
      · by_cases hdel : b = "[deleted]"
        · simp only [collect_comments, if_neg hcnt, hb, hdel, ne_eq, not_true_eq_false,
            if_false] at hc
          exact ih count c hc
        · simp only [collect_comments, if_neg hcnt, hb, ne_eq, hdel, not_false_iff,
            if_true, List.mem_cons] at hc
          rcases hc with h | h
          · subst h
            simpa [extract_comment] using hdel
          · exact ih (count + 1) c h

/-- Claim C5: every post returned by `fetch_comments` carries at most
`max_comments_per_post` comments, and none of them has the removed-sentinel
body. -/
theorem fetch_comments_cap (isoDate : Int → String) (source : String → List RawComment)
    (posts : List Post) (maxComments : Nat) :
    ∀ p ∈ fetch_comments isoDate source posts maxComments,
      p.comments.length ≤ maxComments ∧ ∀ c ∈ p.comments, c.body ≠ "[deleted]" := by
  intro p hp
  rcases List.mem_map.mp hp with ⟨q, _, rfl⟩
  constructor
  · simpa using collect_comments_length isoDate maxComments (source q.id) 0
  · intro c hc
    exact collect_comments_no_deleted isoDate maxComments (source q.id) 0 c hc

/-- A raw comment that is kept by the filter. -/
def demoRawKept : RawComment :=
  { id := "c1", author := some "a", body := some "hello", score := 1, created_utc := 50,
    parent_id := "t3_s1", is_submitter := false }

/-- A raw comment with the removed-sentinel body. -/
def demoRawRemoved : RawComment :=
  { id := "c2", author := none, body := some "[deleted]", score := 0, created_utc := 60,
    parent_id := "t3_s1", is_submitter := false }

/-- A comment source exposing one kept and one removed comment. -/
def demoSource : String → List RawComment := fun _ => [demoRawKept, demoRawRemoved]

/-- The concrete post produced by the fetcher in the runs below. -/
def demoPost : Post := extract_post_data demoIso demoSub

/-- The concrete post after comment attachment with a cap of 1. -/
def demoFetchedPost : Post :=
  { demoPost with comments := collect_comments demoIso 1 (demoSource demoPost.id) 0 }

/-- Witness for the comment-cap theorem with a cap of 1 over a two-comment
source. -/
theorem fetch_comments_cap_witness :
    demoFetchedPost.comments.length ≤ 1 ∧
    ∀ c ∈ demoFetchedPost.comments, c.body ≠ "[deleted]" :=
  fetch_comments_cap demoIso demoSource [demoPost] 1 demoFetchedPost (by decide)
